import Mathlib

/-!
Verification development for the jms-sync repository.

The definitions below are a shallow embedding of the reconciliation engine:

* `JmsSync.extract_instance_id_from_comment` embeds
  `AssetSyncManager._extract_instance_id_from_comment` (jms_sync/sync/asset_sync.py),
  and `JmsSync.ops_extract_instance_id_from_comment` embeds
  `AssetSynchronizer._extract_instance_id_from_comment` (jms_sync/sync/operations.py).
* `JmsSync.sync_assets` embeds `AssetSyncManager.sync_assets` (asset_sync.py): the
  index construction, the instance-id driven create/update phase and the delete pass.
  Directory API calls are modeled by recording the issued calls
  (`createCalls`/`updateCalls`/`deleteCalls`); every issued call is assumed to
  succeed, which is the only path relevant to the planning/execution-decision claims.
  Timestamps that only feed free-text comments are omitted.
* `JmsSync.process_cloud_instance` embeds `SyncManager._process_cloud_instance`
  (jms_sync/sync/sync_manager.py); raw provider records are modeled as a record of
  the normalized dictionary keys the extractors read.
* `JmsSync.get_or_create_child_node`, `JmsSync.init_nodes` and
  `JmsSync.get_or_create_cloud_node` embed `JmsNodeManager` (jumpserver/node_manager.py)
  and `SyncManager._get_or_create_cloud_node`; the directory tree API is modeled as
  a deterministic oracle `NodeEnv` (children listing and node creation, where a
  `none` creation result models the raised API exception).
* `JmsSync.sync_cloud_to_jms` embeds the per-account pipeline of
  `SyncManager.sync_cloud_to_jms` (total-count guard, empty-input guard, node
  resolution, asset sync).
* `JmsSync.cli_exit_code` embeds the exit-code decision of `main` (jms_sync/cli.py).

Python dictionaries are modeled as insertion-ordered association lists
(`JmsSync.dict_insert` / `JmsSync.dict_lookup`), matching CPython semantics:
overwriting keeps the original position, new keys append, iteration follows
insertion order.  Python string truthiness is modeled explicitly (`opt_truthy`).
-/

namespace JmsSync

/-- Insertion-ordered dictionary over string keys, as a list of key-value pairs. -/
abbrev Dict (α : Type) := List (String × α)

/-- Python dict assignment: overwrite in place if the key exists, else append. -/
def dict_insert {α : Type} (m : Dict α) (k : String) (v : α) : Dict α :=
  if m.any (fun p => p.1 == k) then
    m.map (fun p => if p.1 == k then (k, v) else p)
  else
    m ++ [(k, v)]

/-- Python dict lookup (`d.get(k)` / `k in d`): first (unique) matching key. -/
def dict_lookup {α : Type} (m : Dict α) (k : String) : Option α :=
  (m.find? (fun p => p.1 == k)).map (fun p => p.2)

/-- The key list of a dictionary, in iteration order. -/
def dict_keys {α : Type} (m : Dict α) : List String :=
  m.map (fun p => p.1)

/-- Python truthiness of an optional string: `None` and `""` are falsy. -/
def opt_truthy : Option String → Bool
  | some s => !(s == "")
  | none => false

/-- Python `x or y` over optional strings: keep `x` unless it is falsy. -/
def py_or : Option String → Option String → Option String
  | some s, b => if s = "" then b else some s
  | none, b => b

/-- Python f-string rendering of an optional string (`None` prints as "None"). -/
def opt_str : Option String → String
  | some s => s
  | none => "None"

/-- If `sep` is a prefix of `s`, the remainder of `s` after it. -/
def chars_drop_prefix : List Char → List Char → Option (List Char)
  | [], s => some s
  | _ :: _, [] => none
  | p :: ps, c :: cs => if p = c then chars_drop_prefix ps cs else none

/-- Fuel-driven splitter over character lists: scan left to right, cut at each
leftmost non-overlapping occurrence of `sep` (the fuel, chosen larger than the
input length, never runs out). -/
def split_chars (sep : List Char) : Nat → List Char → List Char → List (List Char)
  | 0, acc, _ => [acc.reverse]
  | _ + 1, acc, [] => [acc.reverse]
  | fuel + 1, acc, c :: cs =>
    match chars_drop_prefix sep (c :: cs) with
    | some rest => acc.reverse :: split_chars sep fuel [] rest
    | none => split_chars sep fuel (c :: acc) cs

/-- Python `s.split(sep)` (and Lean's `String.splitOn`) for a nonempty
separator, in a form the kernel evaluates. -/
def str_split_on (s sep : String) : List String :=
  if sep.data.isEmpty then [s]
  else (split_chars sep.data (s.data.length + 1) [] s.data).map (fun l => ⟨l⟩)

/-- Python `sep.join(parts)`. -/
def str_intercalate (sep : String) : List String → String
  | [] => ""
  | [x] => x
  | x :: xs => x ++ sep ++ str_intercalate sep xs

/-- Python `s.strip()` (whitespace from both ends). -/
def str_trim (s : String) : String :=
  ⟨((s.data.dropWhile Char.isWhitespace).reverse.dropWhile Char.isWhitespace).reverse⟩

/-- Python `s.lower()` (ASCII range; all marker characters involved are ASCII
or case-less CJK). -/
def str_to_lower (s : String) : String :=
  ⟨s.data.map Char.toLower⟩

/-- Substring test (the pattern is always nonempty here). -/
def contains_sub (s pat : String) : Bool :=
  (str_split_on s pat).length > 1

/-- The text after the first occurrence of `pat` in `s`, as produced by Python
`s.split(pat, 1)[1]`. -/
def after_first (s pat : String) : String :=
  str_intercalate pat ((str_split_on s pat).drop 1)

/-- One host record of the remote directory, as loaded by the asset manager
(`AssetInfo` in jumpserver/models.py, restricted to the fields the sync reads). -/
structure JsAsset where
  id : String
  name : String
  address : String
  platform : String
  port : Nat
  comment : String
deriving DecidableEq, Repr

/-- One normalized cloud instance dictionary, as handed to
`AssetSyncManager.sync_assets` (optional fields model dictionary keys;
`none` is an absent key). -/
structure CloudAsset where
  instance_id : Option String := none
  ip : Option String := none
  address : Option String := none
  private_ip : Option String := none
  hostname : Option String := none
  instance_name : Option String := none
  os_type : Option String := none
deriving DecidableEq, Repr

/-- `AssetSyncManager._extract_instance_id_from_comment` (asset_sync.py):
scan for a line containing the exact marker `"instance_id:"` and return the
trimmed text after it; otherwise (or for an empty comment) return `none`. -/
def extract_lines : List String → Option String
  | [] => none
  | l :: ls =>
    if contains_sub l "instance_id:" then
      if (str_split_on l "instance_id:").length > 1 then
        some (str_trim (after_first l "instance_id:"))
      else
        extract_lines ls
    else
      extract_lines ls

/-- See `extract_lines`; outer function with the empty-comment and
whole-comment containment guards of the source. -/
def extract_instance_id_from_comment (comment : String) : Option String :=
  if comment = "" then none
  else if contains_sub comment "instance_id:" then
    extract_lines (str_split_on comment "\n")
  else none

/-- The marker patterns of `AssetSynchronizer._extract_instance_id_from_comment`
(operations.py), tested against the lowercased line. -/
def ops_patterns : List String :=
  ["instance_id:", "instance_id：", "instance id:", "实例id:", "实例id："]

/-- One line of the operations.py extractor: if some pattern occurs in the
lowercased line, split on the ASCII colon (Python `re.split` with pattern
`[:]` and maxsplit 1) and return the trimmed tail when the split produced
more than one part; otherwise the loop continues with the next line. -/
def ops_extract_line (line : String) : Option String :=
  if ops_patterns.any (fun p => contains_sub (str_to_lower line) p) then
    if (str_split_on line ":").length > 1 then
      some (str_trim (after_first line ":"))
    else
      none
  else none

/-- Line loop of the operations.py extractor. -/
def ops_extract_lines : List String → Option String
  | [] => none
  | l :: ls =>
    match ops_extract_line l with
    | some v => some v
    | none => ops_extract_lines ls

/-- `AssetSynchronizer._extract_instance_id_from_comment` (operations.py). -/
def ops_extract_instance_id_from_comment (comment : String) : Option String :=
  if comment = "" then none
  else ops_extract_lines (str_split_on comment "\n")

/-- IP of a cloud instance as read in `sync_assets`:
`asset.get('ip') or asset.get('address') or asset.get('private_ip')`. -/
def cloud_ip_of (a : CloudAsset) : Option String :=
  py_or (py_or a.ip a.address) a.private_ip

/-- Display name of a cloud instance as read in `sync_assets`:
`asset.get('hostname') or asset.get('instance_name', f"{cloud_type}-{ip}")`. -/
def cloud_name_of (cloud_type : String) (a : CloudAsset) : String :=
  let fallback :=
    match a.instance_name with
    | some v => v
    | none => cloud_type ++ "-" ++ opt_str (cloud_ip_of a)
  match a.hostname with
  | some h => if h = "" then fallback else h
  | none => fallback

/-- Platform of a cloud instance as read in `sync_assets`:
`asset.get('os_type', 'Linux')`. -/
def cloud_platform_of (a : CloudAsset) : String :=
  match a.os_type with
  | some v => v
  | none => "Linux"

/-- Step 2 of `sync_assets`: index of directory assets by address
(`if asset.address: js_assets_by_ip[asset.address] = asset`). -/
def build_js_by_ip (js_assets : List JsAsset) : Dict JsAsset :=
  js_assets.foldl (fun m a => if a.address = "" then m else dict_insert m a.address a) []

/-- Step 2 of `sync_assets`: index of directory assets by name. -/
def build_js_by_name (js_assets : List JsAsset) : Dict JsAsset :=
  js_assets.foldl (fun m a => if a.name = "" then m else dict_insert m a.name a) []

/-- Step 2 of `sync_assets`: index of directory assets by the instance id
extracted from the asset comment (falsy extraction results are not indexed). -/
def build_js_by_instance_id (js_assets : List JsAsset) : Dict JsAsset :=
  js_assets.foldl
    (fun m a =>
      match extract_instance_id_from_comment a.comment with
      | some iid => if iid = "" then m else dict_insert m iid a
      | none => m)
    []

/-- Step 3 of `sync_assets`: index of cloud instances by IP. -/
def build_cloud_by_ip (cloud_assets : List CloudAsset) : Dict CloudAsset :=
  cloud_assets.foldl
    (fun m a =>
      match cloud_ip_of a with
      | some s => if s = "" then m else dict_insert m s a
      | none => m)
    []

/-- Step 3 of `sync_assets`: index of cloud instances by instance id. -/
def build_cloud_by_instance_id (cloud_assets : List CloudAsset) : Dict CloudAsset :=
  cloud_assets.foldl
    (fun m a =>
      match a.instance_id with
      | some s => if s = "" then m else dict_insert m s a
      | none => m)
    []

/-- Platform classification of a directory asset in `sync_assets`:
`"Windows" if js_asset.platform == 5 or ... == 'Windows' else "Linux"`
(`AssetInfo.platform` is a string, so the `== 5` disjunct is always false). -/
def js_platform_of (a : JsAsset) : String :=
  if a.platform = "Windows" then "Windows" else "Linux"

/-- Protocol implied by a platform string (`"rdp" if ...lower() == "windows" else "ssh"`). -/
def implied_protocol (plat : String) : String :=
  if str_to_lower plat = "windows" then "rdp" else "ssh"

/-- Port implied by a platform string (`3389 if ...lower() == "windows" else 22`). -/
def implied_port (plat : String) : Nat :=
  if str_to_lower plat = "windows" then 3389 else 22

/-- Field-by-field comparison of a matched directory asset against the derived
target state of its instance, producing the human-readable update reasons of
`sync_assets` (IP, name, platform, protocol/port) in source order. -/
def update_reasons (a : JsAsset) (ip : Option String) (name plat : String) : List String :=
  let r1 :=
    if ip = some a.address then []
    else ["IP地址不同: " ++ a.address ++ " -> " ++ opt_str ip]
  let r2 :=
    if a.name = name then []
    else ["名称不同: " ++ a.name ++ " -> " ++ name]
  let js_plat := js_platform_of a
  let r3 :=
    if str_to_lower js_plat = str_to_lower plat then []
    else ["平台类型不同: " ++ js_plat ++ " -> " ++ plat]
  let js_protocol := implied_protocol js_plat
  let new_protocol := implied_protocol plat
  let new_port := implied_port plat
  let r4 :=
    if js_protocol = new_protocol ∧ a.port = new_port then []
    else ["协议或端口变化: " ++ js_protocol ++ ":" ++ toString a.port ++ " -> "
            ++ new_protocol ++ ":" ++ toString new_port]
  r1 ++ r2 ++ r3 ++ r4

/-- Accumulated effect of step 4 of `sync_assets` (the instance-id driven
create/update phase): issued calls, counters and the set of claimed asset ids. -/
structure PhaseOut where
  createCalls : List CloudAsset
  updateCalls : List (JsAsset × List String)
  createdN : Nat
  updatedN : Nat
  skippedN : Nat
  processedIds : List String
deriving DecidableEq, Repr

/-- Step 4 of `sync_assets`: iterate the cloud by-instance-id index in insertion
order; a hit in the directory instance-id index is compared field by field
(update or skip), a miss issues a create. -/
def process_phase (cloud_type : String) (js_by_iid : Dict JsAsset) :
    List (String × CloudAsset) → PhaseOut
  | [] => ⟨[], [], 0, 0, 0, []⟩
  | (iid, ca) :: rest =>
    let o := process_phase cloud_type js_by_iid rest
    match dict_lookup js_by_iid iid with
    | some js_asset =>
      let r := update_reasons js_asset (cloud_ip_of ca) (cloud_name_of cloud_type ca)
        (cloud_platform_of ca)
      if r = [] then
        { o with skippedN := o.skippedN + 1, processedIds := js_asset.id :: o.processedIds }
      else
        { o with updateCalls := (js_asset, r) :: o.updateCalls, updatedN := o.updatedN + 1,
                 processedIds := js_asset.id :: o.processedIds }
    | none =>
      { o with createCalls := ca :: o.createCalls, createdN := o.createdN + 1 }

/-- Delete-reason derivation of step 5 of `sync_assets`: an embedded instance id
absent from the cloud, or (for assets without a truthy embedded id) an address
absent from the cloud IP set. -/
def delete_reason (a : JsAsset) (cloud_iids cloud_ips : List String) : Option String :=
  let iid := extract_instance_id_from_comment a.comment
  if opt_truthy iid then
    if iid.getD "" ∈ cloud_iids then none
    else some ("实例ID " ++ iid.getD "" ++ " 在云平台不存在")
  else if a.address ≠ "" ∧ a.address ∉ cloud_ips then
    some ("IP地址 " ++ a.address ++ " 在云平台不存在")
  else none

/-- Step 5 of `sync_assets` (the delete pass): claimed assets are skipped;
the protected-IP check runs after the delete reason is derived and always wins,
counting the asset as skipped; remaining assets with a delete reason are
deleted.  Returns (delete calls, skipped increment, deleted count). -/
def delete_pass (processedIds cloud_iids cloud_ips protected_ips : List String) :
    List JsAsset → List (JsAsset × String) × Nat × Nat
  | [] => ([], 0, 0)
  | a :: rest =>
    let t := delete_pass processedIds cloud_iids cloud_ips protected_ips rest
    if a.id ∈ processedIds then t
    else
      let rsn := delete_reason a cloud_iids cloud_ips
      if a.address ∈ protected_ips then (t.1, t.2.1 + 1, t.2.2)
      else
        match rsn with
        | some s => ((a, s) :: t.1, t.2.1, t.2.2 + 1)
        | none => t

/-- Overall outcome of one `sync_assets` run: the directory calls issued and
the result counters (all issued calls assumed successful). -/
structure SyncOutcome where
  createCalls : List CloudAsset
  updateCalls : List (JsAsset × List String)
  deleteCalls : List (JsAsset × String)
  createdN : Nat
  updatedN : Nat
  deletedN : Nat
  skippedN : Nat
deriving DecidableEq, Repr

/-- The outcome with no calls and zero counters. -/
def empty_outcome : SyncOutcome := ⟨[], [], [], 0, 0, 0, 0⟩

/-- `AssetSyncManager.sync_assets` (asset_sync.py): build the directory and
cloud indices, run the instance-id driven create/update phase, then (unless
`no_delete`) the delete pass over the directory assets. -/
def sync_assets (cloud_assets : List CloudAsset) (js_assets : List JsAsset)
    (cloud_type : String) (no_delete : Bool) (protected_ips : List String) : SyncOutcome :=
  let js_by_iid := build_js_by_instance_id js_assets
  let cloud_by_ip := build_cloud_by_ip cloud_assets
  let cloud_by_iid := build_cloud_by_instance_id cloud_assets
  let o := process_phase cloud_type js_by_iid cloud_by_iid
  if no_delete then
    ⟨o.createCalls, o.updateCalls, [], o.createdN, o.updatedN, 0, o.skippedN⟩
  else
    let t := delete_pass o.processedIds (dict_keys cloud_by_iid) (dict_keys cloud_by_ip)
      protected_ips js_assets
    ⟨o.createCalls, o.updateCalls, t.1, o.createdN, o.updatedN, t.2.2, o.skippedN + t.2.1⟩

/-- One raw provider record as returned by a cloud client, modeled by the
normalized dictionary keys that `SyncManager`'s extractors read (`idKey`,
`instanceIdKey` and `nameKey` stand for the 'id', 'InstanceId' and 'name'
keys; provider-specific nested fallback keys are not represented, i.e. the
model covers records that use the flat keys). -/
structure RawInstance where
  instance_id : Option String := none
  idKey : Option String := none
  instanceIdKey : Option String := none
  ip : Option String := none
  private_ip : Option String := none
  address : Option String := none
  instance_name : Option String := none
  nameKey : Option String := none
  hostname : Option String := none
  os_type : Option String := none
  total_count : Option Nat := none
deriving DecidableEq, Repr

/-- `SyncManager._extract_instance_id`: keys 'instance_id', 'id', 'InstanceId'
in order, else the empty string. -/
def extract_instance_id_raw (r : RawInstance) : String :=
  match r.instance_id with
  | some v => v
  | none =>
    match r.idKey with
    | some v => v
    | none =>
      match r.instanceIdKey with
      | some v => v
      | none => ""

/-- `SyncManager._extract_instance_ip`: keys 'ip', 'private_ip', 'address'
in order, else the empty string. -/
def extract_instance_ip_raw (r : RawInstance) : String :=
  match r.ip with
  | some v => v
  | none =>
    match r.private_ip with
    | some v => v
    | none =>
      match r.address with
      | some v => v
      | none => ""

/-- `SyncManager._extract_instance_name`: keys 'instance_name', 'name',
'hostname' in order, else the empty string. -/
def extract_instance_name_raw (r : RawInstance) : String :=
  match r.instance_name with
  | some v => v
  | none =>
    match r.nameKey with
    | some v => v
    | none =>
      match r.hostname with
      | some v => v
      | none => ""

/-- `SyncManager._extract_os_type`: a Windows marker in the 'os_type' value,
else a windows/win substring in the extracted name, else Linux. -/
def extract_os_type_raw (r : RawInstance) : String :=
  let by_key :=
    match r.os_type with
    | some v => contains_sub (str_to_lower v) "windows"
    | none => false
  if by_key then "Windows"
  else
    let nm := extract_instance_name_raw r
    if nm ≠ "" ∧ (contains_sub (str_to_lower nm) "windows" ∨ contains_sub (str_to_lower nm) "win") then
      "Windows"
    else "Linux"

/-- `SyncManager._process_cloud_instance`: normalization of one raw record;
records without an extractable instance id or IP yield `none` and are
excluded from the sync. -/
def process_cloud_instance (r : RawInstance) (cloud_type region : String) :
    Option CloudAsset :=
  let iid := extract_instance_id_raw r
  if iid = "" then none
  else
    let ip := extract_instance_ip_raw r
    if ip = "" then none
    else
      let nm0 := extract_instance_name_raw r
      let nm := if nm0 = "" then cloud_type ++ "-" ++ iid else nm0
      let _ := region
      some { instance_id := some iid, instance_name := some nm, hostname := some nm,
             ip := some ip, address := some ip, os_type := some (extract_os_type_raw r) }

/-- One node of the directory tree as seen through the children-tree API
(meta id, meta key and display value). -/
structure NodeDesc where
  id : String
  keyId : String
  value : String
deriving DecidableEq, Repr

/-- Deterministic oracle for the directory node API: `children` lists the
children of a parent key, and `create_node` returns the node created under a
parent id, `none` modeling the raised API exception. -/
structure NodeEnv where
  children : String → List NodeDesc
  create_node : String → String → Option NodeDesc

/-- The fixed root node of `JmsNodeManager._get_root_node`. -/
def root_node : NodeDesc :=
  ⟨"f7409c89-af14-4417-954c-a4744f8b11e1", "1", "DEFAULT"⟩

/-- `JmsNodeManager._get_or_create_child_node`: look for a child of
`parent_key` whose value equals `value` (exact comparison); when absent,
create under `parent_id` (`none` result models the re-raised exception). -/
def get_or_create_child_node (env : NodeEnv) (parent_id parent_key value : String) :
    Option NodeDesc :=
  match (env.children parent_key).find? (fun n => n.value == value) with
  | some n => some n
  | none => env.create_node parent_id value

/-- `JmsNodeManager.init_nodes`: resolve or create the second-level
(provider-type) and third-level (account-name) nodes under the fixed root;
any raised creation failure propagates (`none`). -/
def init_nodes (env : NodeEnv) (cloud_type cloud_name : String) :
    Option (NodeDesc × NodeDesc) :=
  match get_or_create_child_node env root_node.id root_node.keyId cloud_type with
  | none => none
  | some second =>
    match get_or_create_child_node env second.id second.keyId cloud_name with
    | none => none
    | some third => some (second, third)

/-- `SyncManager._get_or_create_cloud_node`: run `init_nodes` and return the
third-level node id; any exception is caught and yields the empty string. -/
def get_or_create_cloud_node (env : NodeEnv) (cloud_type cloud_name : String) : String :=
  match init_nodes env cloud_type cloud_name with
  | none => ""
  | some (_, third) => third.id

/-- `api_total_count` accumulation of `sync_cloud_to_jms`: for each region,
add the 'total_count' value of the first returned record when present. -/
def api_total_count (region_data : List (List RawInstance)) : Nat :=
  region_data.foldl
    (fun acc l =>
      match l with
      | [] => acc
      | h :: _ => acc + h.total_count.getD 0)
    0

/-- Normalization of all regions' records (`_process_cloud_instance` applied
to each record, failures skipped), concatenated in region order. -/
def all_instances_of (region_data : List (List RawInstance)) (cloud_type : String) :
    List CloudAsset :=
  region_data.foldl
    (fun acc l => acc ++ l.filterMap (fun r => process_cloud_instance r cloud_type ""))
    []

/-- Result of one account sync (`SyncResult` restricted to the fields the
claims are about, plus the issued directory calls). -/
structure AccountResult where
  success : Bool
  errorMessage : String
  total : Nat
  expectedTotal : Nat
  outcome : SyncOutcome
deriving DecidableEq, Repr

/-- The abort message of the total-count guard. -/
def mismatch_message (api total : Nat) : String :=
  "实例数量不匹配，跳过同步操作: API返回总数=" ++ toString api
    ++ ", 实际获取数量=" ++ toString total

/-- The abort message of the node-resolution guard. -/
def node_failure_message (cloud_type cloud_name : String) : String :=
  "创建或获取JumpServer节点失败: " ++ cloud_type ++ "/" ++ cloud_name

/-- `SyncManager.sync_cloud_to_jms` (per-account pipeline): normalize all
regions, abort on a positive reported-total mismatch, abort-with-success on an
empty instance set, abort on node-resolution failure, otherwise run
`sync_assets` under the resolved node. -/
def sync_cloud_to_jms (env : NodeEnv) (region_data : List (List RawInstance))
    (cloud_type cloud_name : String) (no_delete : Bool) (protected_ips : List String)
    (js_assets : List JsAsset) : AccountResult :=
  let api := api_total_count region_data
  let insts := all_instances_of region_data cloud_type
  let total := insts.length
  if 0 < api ∧ total ≠ api then
    ⟨false, mismatch_message api total, total, api, empty_outcome⟩
  else if insts = [] then
    ⟨true, "未获取到任何实例信息，中止同步", total, api, empty_outcome⟩
  else
    let node_id := get_or_create_cloud_node env cloud_type cloud_name
    if node_id = "" then
      ⟨false, node_failure_message cloud_type cloud_name, total, api, empty_outcome⟩
    else
      ⟨true, "", total, api, sync_assets insts js_assets cloud_type no_delete protected_ips⟩

/-- Per-account counters as summed by the CLI entry point. -/
structure CloudSyncCounters where
  created : Nat
  updated : Nat
  deleted : Nat
  failed : Nat
deriving DecidableEq, Repr

/-- Outcome of `SyncManager.run_with_retry` as observed by `main` (cli.py):
a completed run with per-account counters, a `JmsSyncError`, or any other
escaping exception. -/
inductive RunOutcome where
  | completed (results : List (String × CloudSyncCounters))
  | jms_sync_error
  | unexpected_error
deriving DecidableEq, Repr

/-- `total_failed` accumulation of `main`: sum of the per-account failed
counters. -/
def total_failed (results : List (String × CloudSyncCounters)) : Nat :=
  (results.map (fun p => p.2.failed)).foldl (fun a b => a + b) 0

/-- Exit-code decision of `main` (cli.py): 1 when the configuration file is
missing, 2 when the run completed with a positive failed total, 0 when it
completed with none, and 1 on a `JmsSyncError` or any unexpected exception. -/
def cli_exit_code (config_exists : Bool) (o : RunOutcome) : Nat :=
  if ¬ config_exists then 1
  else
    match o with
    | .completed results => if 0 < total_failed results then 2 else 0
    | .jms_sync_error => 1
    | .unexpected_error => 1

/-! ## Helper lemmas -/

/-- The create set characterized directly: instances of the (deduplicated,
insertion-ordered) cloud instance-id index whose id is absent from the
directory's comment-derived instance-id index.  This characterization mentions
neither IPs, hostnames nor directory-assigned asset ids. -/
def create_set_spec (cloud_assets : List CloudAsset) (js_assets : List JsAsset) :
    List CloudAsset :=
  ((build_cloud_by_instance_id cloud_assets).filter
    (fun e => (dict_lookup (build_js_by_instance_id js_assets) e.1).isNone)).map
    (fun e => e.2)

lemma process_phase_createCalls (cloud_type : String) (js_by_iid : Dict JsAsset) :
    ∀ l : List (String × CloudAsset),
      (process_phase cloud_type js_by_iid l).createCalls
        = (l.filter (fun e => (dict_lookup js_by_iid e.1).isNone)).map (fun e => e.2)
  | [] => rfl
  | (iid, ca) :: rest => by
    have ih := process_phase_createCalls cloud_type js_by_iid rest
    simp only [process_phase, List.filter_cons]
    cases h : dict_lookup js_by_iid iid with
    | some a =>
      by_cases hr : update_reasons a (cloud_ip_of ca) (cloud_name_of cloud_type ca)
          (cloud_platform_of ca) = [] <;>
        simp [h, hr, ih]
    | none => simp [h, ih]

/-! ## Claim C1 -/

/-- The instance of the C1 counterexample: instance id not recorded in any
directory comment, IP and hostname equal to those of an existing asset. -/
def c1_instance : CloudAsset :=
  { instance_id := some "i-2", ip := some "10.0.0.1", hostname := some "web-1",
    os_type := some "Linux" }

/-- The directory asset of the C1 counterexample. -/
def c1_asset : JsAsset :=
  ⟨"A-1", "web-1", "10.0.0.1", "Linux", 22, ""⟩

/-- Claim C1, counterexample.  The claim states that an instance whose
instance id misses the index is next matched by IP and then by
case-insensitive hostname, going to the create set only when all three keys
miss.  Here the instance's IP and hostname both equal those of the existing
directory asset, yet `sync_assets` still issues a create for it: the
reconciler used by the pipeline consults only the instance-id index. -/
theorem C1_counterexample :
    cloud_ip_of c1_instance = some c1_asset.address
    ∧ cloud_name_of "aliyun" c1_instance = c1_asset.name
    ∧ (sync_assets [c1_instance] [c1_asset] "aliyun" false []).createCalls
        = [c1_instance] := by
  decide

/-- Claim C1, amended: in `AssetSyncManager.sync_assets` the create set is
exactly the set of (id-deduplicated) instances whose embedded instance id is
absent from the comment-derived directory index — matching uses only the
instance id, never IP, hostname, or the directory-assigned asset id, and
instances without a truthy instance id are not considered at all. -/
theorem C1_amended (cloud_assets : List CloudAsset) (js_assets : List JsAsset)
    (cloud_type : String) (no_delete : Bool) (protected_ips : List String) :
    (sync_assets cloud_assets js_assets cloud_type no_delete protected_ips).createCalls
      = create_set_spec cloud_assets js_assets := by
  unfold sync_assets create_set_spec
  cases no_delete <;> simp [process_phase_createCalls]

/-! ## Claim C2 -/

lemma delete_pass_not_protected (processedIds cloud_iids cloud_ips protected_ips : List String) :
    ∀ (l : List JsAsset) (q : JsAsset × String),
      q ∈ (delete_pass processedIds cloud_iids cloud_ips protected_ips l).1 →
        q.1.address ∉ protected_ips
  | [], q => by simp [delete_pass]
  | a :: rest, q => by
    intro hmem
    have ih := delete_pass_not_protected processedIds cloud_iids cloud_ips protected_ips rest
    simp only [delete_pass] at hmem
    by_cases h1 : a.id ∈ processedIds
    · exact ih q (by simpa [h1] using hmem)
    · by_cases h2 : a.address ∈ protected_ips
      · exact ih q (by simpa [h1, h2] using hmem)
      · rcases hr : delete_reason a cloud_iids cloud_ips with _ | s
        · exact ih q (by simpa [h1, h2, hr] using hmem)
        · have hmem' : q = (a, s) ∨
              q ∈ (delete_pass processedIds cloud_iids cloud_ips protected_ips rest).1 := by
            simpa [h1, h2, hr] using hmem
          rcases hmem' with rfl | hq
          · simpa using h2
          · exact ih q hq

lemma delete_pass_skipped (processedIds cloud_iids cloud_ips protected_ips : List String) :
    ∀ l : List JsAsset,
      (delete_pass processedIds cloud_iids cloud_ips protected_ips l).2.1
        = l.countP (fun b => decide (b.id ∉ processedIds ∧ b.address ∈ protected_ips))
  | [] => by simp [delete_pass]
  | a :: rest => by
    have ih := delete_pass_skipped processedIds cloud_iids cloud_ips protected_ips rest
    simp only [delete_pass, List.countP_cons]
    by_cases h1 : a.id ∈ processedIds
    · simp [h1, ih]
    · by_cases h2 : a.address ∈ protected_ips
      · simp [h1, h2, ih]
      · rcases hr : delete_reason a cloud_iids cloud_ips with _ | s <;>
          simp [h1, h2, hr, ih]

/-- Claim C2: an asset whose address is in the protected set never appears in
an executed delete, whatever `no_delete` is set to and whatever its match
status; in the delete pass every unclaimed protected asset is counted into the
skipped counter instead (the protection check runs after the delete reason is
derived and always wins). -/
theorem C2_protected_never_deleted (cloud_assets : List CloudAsset)
    (js_assets : List JsAsset) (cloud_type : String) (no_delete : Bool)
    (protected_ips : List String) (a : JsAsset)
    (ha : a.address ∈ protected_ips) :
    a ∉ ((sync_assets cloud_assets js_assets cloud_type no_delete protected_ips).deleteCalls.map
          Prod.fst)
    ∧ (sync_assets cloud_assets js_assets cloud_type false protected_ips).skippedN
        = (process_phase cloud_type (build_js_by_instance_id js_assets)
            (build_cloud_by_instance_id cloud_assets)).skippedN
          + js_assets.countP (fun b =>
              decide (b.id ∉ (process_phase cloud_type (build_js_by_instance_id js_assets)
                        (build_cloud_by_instance_id cloud_assets)).processedIds
                      ∧ b.address ∈ protected_ips)) := by
  constructor
  · intro hmem
    cases no_delete with
    | true => simp [sync_assets] at hmem
    | false =>
      simp only [sync_assets, List.mem_map] at hmem
      obtain ⟨q, hq, hq1⟩ := hmem
      have := delete_pass_not_protected _ _ _ _ _ q hq
      rw [hq1] at this
      exact this ha
  · simp [sync_assets, delete_pass_skipped]

/-- Witness for Claim C2 at a concrete run: a stale protected asset is not
deleted and is counted as skipped. -/
def c2_asset : JsAsset :=
  ⟨"A-9", "gone", "10.0.0.9", "Linux", 22, "instance_id: i-9"⟩

theorem C2_protected_never_deleted_witness :
    c2_asset.address ∈ ["10.0.0.9"]
    ∧ (c2_asset ∉ ((sync_assets [] [c2_asset] "aliyun" false ["10.0.0.9"]).deleteCalls.map
          Prod.fst)
      ∧ (sync_assets [] [c2_asset] "aliyun" false ["10.0.0.9"]).skippedN
          = (process_phase "aliyun" (build_js_by_instance_id [c2_asset])
              (build_cloud_by_instance_id [])).skippedN
            + [c2_asset].countP (fun b =>
                decide (b.id ∉ (process_phase "aliyun" (build_js_by_instance_id [c2_asset])
                          (build_cloud_by_instance_id [])).processedIds
                        ∧ b.address ∈ ["10.0.0.9"]))) :=
  ⟨by decide,
    C2_protected_never_deleted [] [c2_asset] "aliyun" false ["10.0.0.9"] c2_asset (by decide)⟩

/-! ## Claim C3 -/

/-- Claim C3: whenever the cloud-reported total (positive whenever a total is
reported at all, see the aliyun client) differs from the number of instances
the pipeline obtained, the whole account sync aborts before planning: the
result carries `success = false` and the mismatch message, and no create,
update or delete call is issued. -/
theorem C3_count_mismatch_aborts (env : NodeEnv) (region_data : List (List RawInstance))
    (cloud_type cloud_name : String) (no_delete : Bool) (protected_ips : List String)
    (js_assets : List JsAsset)
    (h1 : 0 < api_total_count region_data)
    (h2 : (all_instances_of region_data cloud_type).length ≠ api_total_count region_data) :
    (sync_cloud_to_jms env region_data cloud_type cloud_name no_delete protected_ips
        js_assets).success = false
    ∧ (sync_cloud_to_jms env region_data cloud_type cloud_name no_delete protected_ips
        js_assets).errorMessage
        = mismatch_message (api_total_count region_data)
            (all_instances_of region_data cloud_type).length
    ∧ (sync_cloud_to_jms env region_data cloud_type cloud_name no_delete protected_ips
        js_assets).outcome = empty_outcome := by
  simp only [sync_cloud_to_jms]
  rw [if_pos ⟨h1, h2⟩]
  exact ⟨rfl, rfl, rfl⟩

/-- The node environment used by the C3 witness (resolution succeeds; it is
never reached on the abort path). -/
def c3_env : NodeEnv :=
  { children := fun _ => [], create_node := fun _ v => some ⟨"C3-" ++ v, "9", v⟩ }

/-- The region data of the C3 witness: the provider reports a total of 2 but
only one record is normalizable (the second has no instance id), so the
account sync aborts with zero mutations. -/
def c3_regions : List (List RawInstance) :=
  [[{ instance_id := some "i-1", ip := some "10.0.0.1", hostname := some "w1",
      total_count := some 2 },
    { ip := some "10.0.0.2", hostname := some "w2" }]]

theorem C3_count_mismatch_aborts_witness :
    0 < api_total_count c3_regions
    ∧ (all_instances_of c3_regions "aliyun").length ≠ api_total_count c3_regions
    ∧ ((sync_cloud_to_jms c3_env c3_regions "aliyun" "prod" false [] []).success = false
      ∧ (sync_cloud_to_jms c3_env c3_regions "aliyun" "prod" false [] []).errorMessage
          = mismatch_message (api_total_count c3_regions)
              (all_instances_of c3_regions "aliyun").length
      ∧ (sync_cloud_to_jms c3_env c3_regions "aliyun" "prod" false [] []).outcome
          = empty_outcome) :=
  ⟨by decide, by decide,
    C3_count_mismatch_aborts c3_env c3_regions "aliyun" "prod" false [] [] (by decide)
      (by decide)⟩

/-! ## Claim C4 -/

/-- The stale directory asset of the C4 counterexample: its embedded instance
id is absent from the (empty) cloud inventory. -/
def c4_asset : JsAsset :=
  ⟨"A-9", "gone", "10.0.0.9", "Linux", 22, "instance_id: i-9"⟩

/-- Claim C4, counterexample.  The claim states that with `no_delete` set
every delete candidate is counted as skipped.  Here the asset is a delete
candidate (it is deleted when `no_delete` is off), and with `no_delete` on no
delete is executed — but the skipped counter stays at 0: candidates are not
counted at all. -/
theorem C4_counterexample :
    ((sync_assets [] [c4_asset] "aliyun" false []).deleteCalls.map Prod.fst) = [c4_asset]
    ∧ (sync_assets [] [c4_asset] "aliyun" true []).deleteCalls = []
    ∧ (sync_assets [] [c4_asset] "aliyun" true []).skippedN = 0 := by
  decide

/-- Claim C4, amended: with `no_delete` set the delete pass is skipped
entirely — no delete is executed and the delete candidates are never examined,
so the skipped counter equals the create/update phase's count and receives no
contribution from would-be delete candidates. -/
theorem C4_no_delete_is_noop (cloud_assets : List CloudAsset) (js_assets : List JsAsset)
    (cloud_type : String) (protected_ips : List String) :
    (sync_assets cloud_assets js_assets cloud_type true protected_ips).deleteCalls = []
    ∧ (sync_assets cloud_assets js_assets cloud_type true protected_ips).deletedN = 0
    ∧ (sync_assets cloud_assets js_assets cloud_type true protected_ips).skippedN
        = (process_phase cloud_type (build_js_by_instance_id js_assets)
            (build_cloud_by_instance_id cloud_assets)).skippedN :=
  ⟨rfl, rfl, rfl⟩

/-! ## Claim C5 -/

/-- The update reasons computed in `sync_assets` for a matched pair, with the
instance's derived target state filled in as at the call site. -/
def target_reasons (cloud_type : String) (a : JsAsset) (inst : CloudAsset) : List String :=
  update_reasons a (cloud_ip_of inst) (cloud_name_of cloud_type inst) (cloud_platform_of inst)

/-- Claim C5: a matched directory asset is compared to the instance's derived
target state field by field (address, name, platform, protocol/port implied by
platform); the reason list is empty exactly when all fields agree and
otherwise holds one human-readable string per differing field; in the run an
identical pair only increments the skipped counter while a differing pair is
updated with exactly those reasons. -/
theorem C5_field_by_field_update (a : JsAsset) (inst : CloudAsset) (cloud_type : String)
    (protected_ips : List String) (i : String)
    (hiid : inst.instance_id = some i) (hi : i ≠ "")
    (hcm : extract_instance_id_from_comment a.comment = some i) :
    (target_reasons cloud_type a inst = [] ↔
      (cloud_ip_of inst = some a.address
        ∧ a.name = cloud_name_of cloud_type inst
        ∧ str_to_lower (js_platform_of a) = str_to_lower (cloud_platform_of inst)
        ∧ implied_protocol (js_platform_of a) = implied_protocol (cloud_platform_of inst)
        ∧ a.port = implied_port (cloud_platform_of inst)))
    ∧ (target_reasons cloud_type a inst).length
        = ((if cloud_ip_of inst = some a.address then 0 else 1)
          + (if a.name = cloud_name_of cloud_type inst then 0 else 1)
          + (if str_to_lower (js_platform_of a) = str_to_lower (cloud_platform_of inst)
                then 0 else 1)
          + (if implied_protocol (js_platform_of a) = implied_protocol (cloud_platform_of inst)
                ∧ a.port = implied_port (cloud_platform_of inst) then 0 else 1))
    ∧ (target_reasons cloud_type a inst = [] →
        (sync_assets [inst] [a] cloud_type false protected_ips).skippedN = 1
        ∧ (sync_assets [inst] [a] cloud_type false protected_ips).updateCalls = []
        ∧ (sync_assets [inst] [a] cloud_type false protected_ips).updatedN = 0)
    ∧ (target_reasons cloud_type a inst ≠ [] →
        (sync_assets [inst] [a] cloud_type false protected_ips).updateCalls
            = [(a, target_reasons cloud_type a inst)]
        ∧ (sync_assets [inst] [a] cloud_type false protected_ips).updatedN = 1
        ∧ (sync_assets [inst] [a] cloud_type false protected_ips).skippedN = 0) := by
  have hc : build_cloud_by_instance_id [inst] = [(i, inst)] := by
    simp [build_cloud_by_instance_id, hiid, hi, dict_insert]
  have hj : build_js_by_instance_id [a] = [(i, a)] := by
    simp [build_js_by_instance_id, hcm, hi, dict_insert]
  have hl : dict_lookup [(i, a)] i = some a := by simp [dict_lookup]
  have hrun : sync_assets [inst] [a] cloud_type false protected_ips
      = (if target_reasons cloud_type a inst = [] then
          ⟨[], [], [], 0, 0, 0, 1⟩
        else
          ⟨[], [(a, target_reasons cloud_type a inst)], [], 0, 1, 0, 0⟩ : SyncOutcome) := by
    unfold target_reasons
    by_cases hr : update_reasons a (cloud_ip_of inst) (cloud_name_of cloud_type inst)
        (cloud_platform_of inst) = [] <;>
      simp [sync_assets, hc, hj, process_phase, hl, delete_pass, hr]
  refine ⟨?_, ?_, ?_, ?_⟩
  · unfold target_reasons update_reasons
    by_cases h1 : cloud_ip_of inst = some a.address <;>
      by_cases h2 : a.name = cloud_name_of cloud_type inst <;>
        by_cases h3 : str_to_lower (js_platform_of a) = str_to_lower (cloud_platform_of inst) <;>
          by_cases h4 : implied_protocol (js_platform_of a)
              = implied_protocol (cloud_platform_of inst)
              ∧ a.port = implied_port (cloud_platform_of inst) <;>
            simp [h1, h2, h3, h4]
  · unfold target_reasons update_reasons
    by_cases h1 : cloud_ip_of inst = some a.address <;>
      by_cases h2 : a.name = cloud_name_of cloud_type inst <;>
        by_cases h3 : str_to_lower (js_platform_of a) = str_to_lower (cloud_platform_of inst) <;>
          by_cases h4 : implied_protocol (js_platform_of a)
              = implied_protocol (cloud_platform_of inst)
              ∧ a.port = implied_port (cloud_platform_of inst) <;>
            simp [h1, h2, h3, h4]
  · intro hr
    rw [hrun, if_pos hr]
    exact ⟨rfl, rfl, rfl⟩
  · intro hr
    rw [hrun, if_neg hr]
    exact ⟨rfl, rfl, rfl⟩

/-- The matched pair of the C5 witness: identical target state. -/
def c5_instance : CloudAsset :=
  { instance_id := some "i-1", ip := some "10.0.0.1", hostname := some "web-1",
    os_type := some "Linux" }

/-- The directory asset of the C5 witness. -/
def c5_asset : JsAsset :=
  ⟨"B-1", "web-1", "10.0.0.1", "Linux", 22, "instance_id: i-1"⟩

theorem C5_field_by_field_update_witness :
    (sync_assets [c5_instance] [c5_asset] "aliyun" false []).skippedN = 1
    ∧ (sync_assets [c5_instance] [c5_asset] "aliyun" false []).updateCalls = []
    ∧ (sync_assets [c5_instance] [c5_asset] "aliyun" false []).updatedN = 0 :=
  (C5_field_by_field_update c5_asset c5_instance "aliyun" [] "i-1" rfl (by decide)
      (by decide)).2.2.1 (by decide)

/-! ## Claim C6 -/

/-- A well-formed companion record for the C6 theorem (the sync needs at least
one valid instance, or it aborts before the delete pass). -/
def c6_good_raw : RawInstance :=
  { instance_id := some "i-good", ip := some "10.0.0.9", hostname := some "good-host",
    os_type := some "Linux" }

/-- The normalization of `c6_good_raw`. -/
def c6_good_asset : CloudAsset :=
  { instance_id := some "i-good", instance_name := some "good-host",
    hostname := some "good-host", ip := some "10.0.0.9", address := some "10.0.0.9",
    os_type := some "Linux" }

/-- Claim C6: a raw record with no extractable instance id normalizes to
`none` and is excluded from the whole sync even when it carries a valid IP and
hostname: it is never created or updated, its IP reaches neither the matching
indices nor the cloud IP set, and a directory asset at that address becomes a
delete candidate and is deleted. -/
theorem C6_no_id_record_excluded (r : RawInstance) (a : JsAsset) (env : NodeEnv)
    (cloud_type cloud_name : String)
    (hid : extract_instance_id_raw r = "")
    (_hip : r.ip = some a.address)
    (_hhn : r.hostname = some a.name)
    (ha1 : a.address ≠ "")
    (ha2 : a.address ≠ "10.0.0.9")
    (hac : extract_instance_id_from_comment a.comment = none)
    (henv : get_or_create_cloud_node env cloud_type cloud_name ≠ "") :
    process_cloud_instance r cloud_type "" = none
    ∧ (sync_cloud_to_jms env [[c6_good_raw, r]] cloud_type cloud_name false []
        [a]).outcome.createCalls = [c6_good_asset]
    ∧ (sync_cloud_to_jms env [[c6_good_raw, r]] cloud_type cloud_name false []
        [a]).outcome.updateCalls = []
    ∧ (sync_cloud_to_jms env [[c6_good_raw, r]] cloud_type cloud_name false []
        [a]).outcome.deleteCalls
        = [(a, "IP地址 " ++ a.address ++ " 在云平台不存在")] := by
  have hpr : process_cloud_instance r cloud_type "" = none := by
    simp [process_cloud_instance, hid]
  have hpg : process_cloud_instance c6_good_raw cloud_type "" = some c6_good_asset := by
    simp [process_cloud_instance, extract_instance_id_raw, extract_instance_ip_raw,
      extract_instance_name_raw, extract_os_type_raw, c6_good_raw, c6_good_asset]
    decide
  have hall : all_instances_of [[c6_good_raw, r]] cloud_type = [c6_good_asset] := by
    simp [all_instances_of, hpr, hpg]
  have hapi : api_total_count [[c6_good_raw, r]] = 0 := by
    simp [api_total_count, c6_good_raw]
  refine ⟨hpr, ?_⟩
  have hrun : sync_cloud_to_jms env [[c6_good_raw, r]] cloud_type cloud_name false [] [a]
      = ⟨true, "", 1, 0, sync_assets [c6_good_asset] [a] cloud_type false []⟩ := by
    simp [sync_cloud_to_jms, hall, hapi, henv]
  rw [hrun]
  have hjs : build_js_by_instance_id [a] = [] := by
    simp [build_js_by_instance_id, hac]
  have hrsn : delete_reason a ["i-good"] ["10.0.0.9"]
      = some ("IP地址 " ++ a.address ++ " 在云平台不存在") := by
    simp [delete_reason, hac, opt_truthy, ha1, ha2]
  simp [sync_assets, hjs, build_cloud_by_instance_id, build_cloud_by_ip, c6_good_asset,
    cloud_ip_of, py_or, dict_insert, process_phase, dict_lookup, dict_keys, delete_pass,
    hrsn]

/-- A record of the C6 witness: valid IP and hostname, but no instance id. -/
def c6_lost_raw : RawInstance :=
  { ip := some "10.0.0.77", hostname := some "lost-host" }

/-- The orphaned directory asset of the C6 witness. -/
def c6_orphan_asset : JsAsset :=
  ⟨"A-7", "lost-host", "10.0.0.77", "Linux", 22, "orphan"⟩

/-- A node environment in which resolution succeeds, for the C6 witness. -/
def c6_env : NodeEnv :=
  { children := fun k =>
      if k == "1" then [⟨"N2", "1:1", "aliyun"⟩]
      else if k == "1:1" then [⟨"N3", "1:1:1", "prod"⟩]
      else [],
    create_node := fun _ _ => none }

theorem C6_no_id_record_excluded_witness :
    process_cloud_instance c6_lost_raw "aliyun" "" = none
    ∧ (sync_cloud_to_jms c6_env [[c6_good_raw, c6_lost_raw]] "aliyun" "prod" false []
        [c6_orphan_asset]).outcome.createCalls = [c6_good_asset]
    ∧ (sync_cloud_to_jms c6_env [[c6_good_raw, c6_lost_raw]] "aliyun" "prod" false []
        [c6_orphan_asset]).outcome.updateCalls = []
    ∧ (sync_cloud_to_jms c6_env [[c6_good_raw, c6_lost_raw]] "aliyun" "prod" false []
        [c6_orphan_asset]).outcome.deleteCalls
        = [(c6_orphan_asset, "IP地址 " ++ c6_orphan_asset.address ++ " 在云平台不存在")] :=
  C6_no_id_record_excluded c6_lost_raw c6_orphan_asset c6_env "aliyun" "prod" (by decide)
    (by decide) (by decide) (by decide) (by decide) (by decide) (by decide)

/-! ## Claim C7 -/

/-- The node environment of the C7 counterexample: the provider-type node
exists, the account node does not, and every creation attempt fails. -/
def c7_env : NodeEnv :=
  { children := fun k => if k == "1" then [⟨"A2", "1:1", "aliyun"⟩] else [],
    create_node := fun _ _ => none }

/-- A valid instance record for the C7 counterexample. -/
def c7_raw : RawInstance :=
  { instance_id := some "i-7", ip := some "10.0.0.7", hostname := some "h7" }

/-- Claim C7, counterexample.  The claim states that on node-creation failure
the resolver falls back to the best partially-resolved ancestor (here the
provider-type node, which exists) and the account sync proceeds.  In the
pipeline (`JmsNodeManager` via `SyncManager._get_or_create_cloud_node`) the
creation failure propagates, the resolver yields an empty node id and the
account sync aborts with `success = false` and zero mutations. -/
theorem C7_counterexample :
    (c7_env.children "1").find? (fun n => n.value == "aliyun") = some ⟨"A2", "1:1", "aliyun"⟩
    ∧ init_nodes c7_env "aliyun" "prod" = none
    ∧ get_or_create_cloud_node c7_env "aliyun" "prod" = ""
    ∧ (sync_cloud_to_jms c7_env [[c7_raw]] "aliyun" "prod" false [] []).success = false
    ∧ (sync_cloud_to_jms c7_env [[c7_raw]] "aliyun" "prod" false [] []).outcome
        = empty_outcome := by
  decide

/-- Claim C7, amended: when node-path resolution fails (a child-node creation
raises after the directory client's retries), the account sync aborts before
any catalog mutation — the result is `success = false` with the node-failure
message and an empty outcome; there is no fallback to a partially-resolved
ancestor in the active pipeline. -/
theorem C7_node_failure_aborts (env : NodeEnv) (region_data : List (List RawInstance))
    (cloud_type cloud_name : String) (no_delete : Bool) (protected_ips : List String)
    (js_assets : List JsAsset)
    (hguard : ¬ (0 < api_total_count region_data
        ∧ (all_instances_of region_data cloud_type).length ≠ api_total_count region_data))
    (hne : ¬ (all_instances_of region_data cloud_type = []))
    (hinit : init_nodes env cloud_type cloud_name = none) :
    (sync_cloud_to_jms env region_data cloud_type cloud_name no_delete protected_ips
        js_assets).success = false
    ∧ (sync_cloud_to_jms env region_data cloud_type cloud_name no_delete protected_ips
        js_assets).errorMessage = node_failure_message cloud_type cloud_name
    ∧ (sync_cloud_to_jms env region_data cloud_type cloud_name no_delete protected_ips
        js_assets).outcome = empty_outcome := by
  have hnode : get_or_create_cloud_node env cloud_type cloud_name = "" := by
    simp [get_or_create_cloud_node, hinit]
  simp only [sync_cloud_to_jms]
  rw [if_neg hguard, if_neg hne, hnode, if_pos rfl]
  exact ⟨rfl, rfl, rfl⟩

theorem C7_node_failure_aborts_witness :
    (sync_cloud_to_jms c7_env [[c7_raw]] "aliyun" "prod" true ["10.0.0.3"] []).success = false
    ∧ (sync_cloud_to_jms c7_env [[c7_raw]] "aliyun" "prod" true ["10.0.0.3"] []).errorMessage
        = node_failure_message "aliyun" "prod"
    ∧ (sync_cloud_to_jms c7_env [[c7_raw]] "aliyun" "prod" true ["10.0.0.3"] []).outcome
        = empty_outcome :=
  C7_node_failure_aborts c7_env [[c7_raw]] "aliyun" "prod" true ["10.0.0.3"] [] (by decide)
    (by decide) (by decide)

/-! ## Claim C8 -/

/-- The node environment of the C8 counterexample: a child differing from the
requested segment only in letter case exists, and creation succeeds with a
fresh node. -/
def c8_env : NodeEnv :=
  { children := fun k => if k == "1" then [⟨"A1", "1:5", "Aliyun"⟩] else [],
    create_node := fun _ v => some ⟨"NEW-" ++ v, "1:9", v⟩ }

/-- Claim C8, counterexample.  The claim states the per-segment lookup is
case-insensitive, so a segment differing from an existing child's name only in
case is found, not created a second time.  Here the parent has a child
`"Aliyun"`, the segment is `"aliyun"`, and `_get_or_create_child_node` creates
a fresh node instead of returning the existing one: the comparison is exact. -/
theorem C8_counterexample :
    (c8_env.children "1").any
        (fun n => str_to_lower n.value == str_to_lower "aliyun") = true
    ∧ get_or_create_child_node c8_env root_node.id "1" "aliyun"
        = some ⟨"NEW-aliyun", "1:9", "aliyun"⟩
    ∧ (⟨"NEW-aliyun", "1:9", "aliyun"⟩ : NodeDesc) ∉ c8_env.children "1" := by
  decide

/-- Claim C8, amended: in `JmsNodeManager._get_or_create_child_node` the
lookup among the parent's children compares node values exactly
(case-sensitively): a child found by exact value is returned, and a new node
is created precisely when no child's value equals the segment — even when one
matches case-insensitively. -/
theorem C8_exact_match_lookup (env : NodeEnv) (parent_id parent_key value : String) :
    (∀ n, (env.children parent_key).find? (fun c => c.value == value) = some n →
        get_or_create_child_node env parent_id parent_key value = some n)
    ∧ ((∀ n ∈ env.children parent_key, n.value ≠ value) →
        get_or_create_child_node env parent_id parent_key value
          = env.create_node parent_id value) := by
  constructor
  · intro n h
    simp [get_or_create_child_node, h]
  · intro h
    have hf : (env.children parent_key).find? (fun c => c.value == value) = none := by
      rw [List.find?_eq_none]
      intro x hx
      simpa using h x hx
    simp [get_or_create_child_node, hf]

theorem C8_exact_match_lookup_witness :
    get_or_create_child_node c8_env root_node.id "1" "Aliyun"
        = some ⟨"A1", "1:5", "Aliyun"⟩
    ∧ get_or_create_child_node c8_env root_node.id "1" "huawei"
        = some ⟨"NEW-huawei", "1:9", "huawei"⟩ :=
  ⟨(C8_exact_match_lookup c8_env root_node.id "1" "Aliyun").1 ⟨"A1", "1:5", "Aliyun"⟩
      (by decide),
    ((C8_exact_match_lookup c8_env root_node.id "1" "huawei").2 (by decide)).trans (by decide)⟩

/-! ## Claim C9 -/

/-- Claim C9, evaluation at the failing input.  Both extractors return `none`
for a comment whose instance-id label is followed by a full-width colon,
although the operations.py extractor's own inline documentation lists
`instance_id：i-xxxxxx` (full-width colon) as a matched format: the line is
recognized via the full-width pattern but then split on the ASCII colon only
(`re.split` with class `[:]`), so no id is returned.  The half-width colon
(case-insensitively in operations.py) does work. -/
theorem C9_fullwidth_colon_fails :
    ops_extract_instance_id_from_comment "instance_id：i-123" = none
    ∧ extract_instance_id_from_comment "instance_id：i-123" = none
    ∧ ops_extract_instance_id_from_comment "instance_id: i-123" = some "i-123"
    ∧ ops_extract_instance_id_from_comment "INSTANCE_ID: i-123" = some "i-123"
    ∧ extract_instance_id_from_comment "INSTANCE_ID: i-123" = none := by
  decide

/-! ## Claim C10 -/

/-- Claim C10: the CLI exits with 0 when the run completes and no asset
operation failed (summed over all accounts), with 2 when the run completes and
at least one failed, and with 1 on a missing configuration file, a
`JmsSyncError`, or any unexpected exception. -/
theorem C10_exit_codes (results : List (String × CloudSyncCounters)) (o : RunOutcome) :
    (cli_exit_code true (RunOutcome.completed results) = 0 ↔ total_failed results = 0)
    ∧ (cli_exit_code true (RunOutcome.completed results) = 2 ↔ 0 < total_failed results)
    ∧ cli_exit_code false o = 1
    ∧ cli_exit_code true RunOutcome.jms_sync_error = 1
    ∧ cli_exit_code true RunOutcome.unexpected_error = 1 := by
  refine ⟨?_, ?_, ?_, rfl, rfl⟩
  · by_cases h : 0 < total_failed results <;> simp [cli_exit_code, h] <;> omega
  · by_cases h : 0 < total_failed results <;> simp [cli_exit_code, h]
  · cases o <;> simp [cli_exit_code]

end JmsSync
